import Mathlib

/-!
Shallow embedding of the `thetime` Rust library (werdl/thetime).

The two time structs `System` (src/system.rs) and `Ntp` (src/ntp.rs) and the
`Time` / `TimeDiff` / `IntTime` trait methods they share (src/lib.rs) are
translated into executable Lean definitions.  Machine integers are modelled as
`Nat` / `Int` with explicit reductions modulo `2^64` wherever the Rust code
performs `u64` / `i64` arithmetic; release-mode (wrapping) overflow semantics
are used throughout.  External collaborators (the platform clock, the chrono
parser, the NTP socket) are modelled by passing their observable outputs as
explicit arguments.
-/

/-- Modulus of Rust `u64` arithmetic, `2^64`. -/
def U64MOD : ℕ := 18446744073709551616

/-- Magnitude of `i64::MIN`, `2^63`. -/
def I64HALF : ℕ := 9223372036854775808

/-- Rust `as u64` cast of an integer (two's-complement reinterpretation,
i.e. reduction modulo `2^64` into `[0, 2^64)`). -/
def toU64 (z : ℤ) : ℕ := (z % (U64MOD : ℤ)).toNat

/-- Rust `as i64` reinterpretation of a `u64` value: values below `2^63` map to
themselves, the rest to their value minus `2^64`. -/
def toI64 (n : ℕ) : ℤ :=
  if n % U64MOD < I64HALF then ((n % U64MOD : ℕ) : ℤ) else ((n % U64MOD : ℕ) : ℤ) - (U64MOD : ℤ)

/-- Result of an `i64` operation under release-mode wrapping semantics: the
exact integer result reduced into `[-2^63, 2^63)` modulo `2^64`. -/
def wrapI64 (z : ℤ) : ℤ := toI64 (toU64 z)

/-- Rust `as i64` cast from `f64`: saturates at the `i64` bounds (the values we
cast are integral, so truncation is the identity). -/
def satI64 (z : ℤ) : ℤ := max (-(I64HALF : ℤ)) (min ((I64HALF : ℤ) - 1) z)

/-- Fuelled count of the halvings needed to bring a natural number below
`2^53`; this is the exponent of the unit in the last place of the IEEE
binary64 value of that magnitude. -/
def ulpExpAux : ℕ → ℕ → ℕ
  | 0, _ => 0
  | fuel + 1, m => if m < 9007199254740992 then 0 else ulpExpAux fuel (m / 2) + 1

/-- Exponent of the unit in the last place of an IEEE binary64 holding a value
of magnitude `m` (0 when `m` fits in 53 bits).  128 units of fuel cover every
magnitude the library can produce. -/
def ulpExp (m : ℕ) : ℕ := ulpExpAux 128 m

/-- Rounding of a natural number to the nearest IEEE binary64 value
(round-to-nearest, ties to even), expressed on the integer result. -/
def roundNat53 (n : ℕ) : ℕ :=
  if n < 9007199254740992 then n
  else
    let e := ulpExp n
    let q := n / 2 ^ e
    let r := n % 2 ^ e
    if 2 * r > 2 ^ e ∨ (2 * r = 2 ^ e ∧ q % 2 = 1) then (q + 1) * 2 ^ e else q * 2 ^ e

/-- Rounding of an integer to the nearest IEEE binary64 value (model of Rust's
`as f64` on integers and of an `f64` product of integers). -/
def roundF64Int (z : ℤ) : ℤ :=
  if z < 0 then -(roundNat53 z.natAbs : ℤ) else (roundNat53 z.toNat : ℤ)

/-- RelativeTime enum from src/lib.rs. -/
inductive RelativeTime where
  | Past
  | Present
  | Future
  deriving DecidableEq, Repr

/-- System time struct from src/system.rs: `inner_secs` is seconds since
1601-01-01, `inner_milliseconds` the subsecond milliseconds, `utc_offset` the
`i32` offset tag. -/
structure System where
  inner_secs : ℕ
  inner_milliseconds : ℕ
  utc_offset : ℤ
  deriving DecidableEq, Repr

/-- Ntp time struct from src/ntp.rs, in source field order. -/
structure Ntp where
  inner_secs : ℕ
  inner_milliseconds : ℕ
  server : String
  utc_offset : ℤ
  deriving DecidableEq, Repr

/-- System::raw from src/system.rs: `(inner_secs * 1000) + inner_milliseconds`
in `u64` arithmetic. -/
def System.raw (v : System) : ℕ := (v.inner_secs * 1000 % U64MOD + v.inner_milliseconds) % U64MOD

/-- Ntp::raw from src/ntp.rs: same `u64` computation as System::raw. -/
def Ntp.raw (v : Ntp) : ℕ := (v.inner_secs * 1000 % U64MOD + v.inner_milliseconds) % U64MOD

/-- System::unix: `(inner_secs as i64) - (OFFSET_1601 as i64)`. -/
def System.unix (v : System) : ℤ := wrapI64 (toI64 v.inner_secs - 11644473600)

/-- Ntp::unix: identical formula to System::unix. -/
def Ntp.unix (v : Ntp) : ℤ := wrapI64 (toI64 v.inner_secs - 11644473600)

/-- System::unix_ms: `((inner_secs as i64 * 1000) + inner_milliseconds as i64)
- (OFFSET_1601 as i64 * 1000)` with each `i64` step wrapping. -/
def System.unix_ms (v : System) : ℤ :=
  wrapI64 (wrapI64 (wrapI64 (toI64 v.inner_secs * 1000) + toI64 v.inner_milliseconds) - 11644473600000)

/-- Ntp::unix_ms: identical formula to System::unix_ms. -/
def Ntp.unix_ms (v : Ntp) : ℤ :=
  wrapI64 (wrapI64 (wrapI64 (toI64 v.inner_secs * 1000) + toI64 v.inner_milliseconds) - 11644473600000)

/-- Time::epoch default method: `unix_ms() + OFFSET_1601 * 1000`. -/
def System.epoch (v : System) : ℤ := wrapI64 (v.unix_ms + 11644473600000)

/-- Time::epoch for Ntp. -/
def Ntp.epoch (v : Ntp) : ℤ := wrapI64 (v.unix_ms + 11644473600000)

/-- Time::windows_ns default method: `((epoch() as f64) * 1e4) as i64`. -/
def System.windows_ns (v : System) : ℤ := satI64 (roundF64Int (roundF64Int v.epoch * 10000))

/-- Time::windows_ns for Ntp. -/
def Ntp.windows_ns (v : Ntp) : ℤ := satI64 (roundF64Int (roundF64Int v.epoch * 10000))

/-- Time::mac_os default method: `unix() + MAGIC_MAC_OS` (2082844800). -/
def System.mac_os (v : System) : ℤ := wrapI64 (v.unix + 2082844800)

/-- Time::mac_os_cfa default method: `unix() - MAGIC_MAC_OS_CFA` (978307200). -/
def System.mac_os_cfa (v : System) : ℤ := wrapI64 (v.unix - 978307200)

/-- Time::sas_4gl default method: `unix() + MAGIC_SAS_4GL` (315619200). -/
def System.sas_4gl (v : System) : ℤ := wrapI64 (v.unix + 315619200)

/-- Time::mac_os for Ntp. -/
def Ntp.mac_os (v : Ntp) : ℤ := wrapI64 (v.unix + 2082844800)

/-- Time::mac_os_cfa for Ntp. -/
def Ntp.mac_os_cfa (v : Ntp) : ℤ := wrapI64 (v.unix - 978307200)

/-- Time::sas_4gl for Ntp. -/
def Ntp.sas_4gl (v : Ntp) : ℤ := wrapI64 (v.unix + 315619200)

/-- System::from_epoch: split a 1601-epoch millisecond timestamp into whole
seconds and remainder milliseconds, offset tag 0. -/
def System.from_epoch (timestamp : ℕ) : System :=
  { inner_secs := timestamp / 1000, inner_milliseconds := timestamp % 1000, utc_offset := 0 }

/-- System::from_epoch_offset: like from_epoch but with the given offset tag. -/
def System.from_epoch_offset (timestamp : ℕ) (offset : ℤ) : System :=
  { inner_secs := timestamp / 1000, inner_milliseconds := timestamp % 1000, utc_offset := offset }

/-- Ntp::from_epoch. -/
def Ntp.from_epoch (timestamp : ℕ) : Ntp :=
  { inner_secs := timestamp / 1000, inner_milliseconds := timestamp % 1000,
    server := "from_epoch", utc_offset := 0 }

/-- Ntp::from_epoch_offset, exactly as written in src/ntp.rs: note that
`inner_secs` is set to the whole millisecond `timestamp`, without the division
by 1000 that System::from_epoch_offset and Ntp::from_epoch perform. -/
def Ntp.from_epoch_offset (timestamp : ℕ) (offset : ℤ) : Ntp :=
  { inner_secs := timestamp, inner_milliseconds := timestamp % 1000,
    server := "from_epoch_offset", utc_offset := offset }

/-- Time::past_future default method body, on the two `raw()` values. -/
def pastFutureRaw (x y : ℕ) : RelativeTime :=
  if x < y then .Past else if x > y then .Future else .Present

/-- Time::past_future between two System values. -/
def System.past_future (a b : System) : RelativeTime := pastFutureRaw a.raw b.raw

/-- Time::past_future between two Ntp values. -/
def Ntp.past_future (a b : Ntp) : RelativeTime := pastFutureRaw a.raw b.raw

/-- Time::past_future of a System value against an Ntp value (the method is
generic in the other operand's type). -/
def System.past_future_ntp (a : System) (b : Ntp) : RelativeTime := pastFutureRaw a.raw b.raw

/-- Time::past_future of an Ntp value against a System value. -/
def Ntp.past_future_system (a : Ntp) (b : System) : RelativeTime := pastFutureRaw a.raw b.raw

/-- Rust `u64::abs_diff`. -/
def absDiff (x y : ℕ) : ℕ := if x ≤ y then y - x else x - y

/-- TimeDiff::diff default method: `raw().abs_diff(other.raw()) / 1000`. -/
def System.diff (a b : System) : ℕ := absDiff a.raw b.raw / 1000

/-- TimeDiff::diff_ms default method: `raw().abs_diff(other.raw())`. -/
def System.diff_ms (a b : System) : ℕ := absDiff a.raw b.raw

/-- TimeDiff::diff for Ntp. -/
def Ntp.diff (a b : Ntp) : ℕ := absDiff a.raw b.raw / 1000

/-- TimeDiff::diff_ms for Ntp. -/
def Ntp.diff_ms (a b : Ntp) : ℕ := absDiff a.raw b.raw

/-- Rust `#[derive(Ord)]` on System: lexicographic comparison of the fields in
declaration order (inner_secs, inner_milliseconds, utc_offset). -/
def systemCmp (a b : System) : Ordering :=
  (compare a.inner_secs b.inner_secs).then
    ((compare a.inner_milliseconds b.inner_milliseconds).then (compare a.utc_offset b.utc_offset))

/-- Time::add_seconds default method:
`Self::from_epoch((raw() as i64 + duration * 1000) as u64)`. -/
def System.add_seconds (v : System) (duration : ℤ) : System :=
  System.from_epoch (toU64 (wrapI64 (toI64 v.raw + wrapI64 (duration * 1000))))

/-- Time::add_minutes default method: `add_seconds(minutes * 60)`. -/
def System.add_minutes (v : System) (minutes : ℤ) : System := v.add_seconds (wrapI64 (minutes * 60))

/-- Time::add_hours default method: `add_seconds(hours * 3600)`. -/
def System.add_hours (v : System) (hours : ℤ) : System := v.add_seconds (wrapI64 (hours * 3600))

/-- Time::add_days default method: `add_seconds(days * 86400)`. -/
def System.add_days (v : System) (days : ℤ) : System := v.add_seconds (wrapI64 (days * 86400))

/-- Time::add_weeks default method: `add_seconds(weeks * 604800)`. -/
def System.add_weeks (v : System) (weeks : ℤ) : System := v.add_seconds (wrapI64 (weeks * 604800))

/-- Time::add_seconds for Ntp. -/
def Ntp.add_seconds (v : Ntp) (duration : ℤ) : Ntp :=
  Ntp.from_epoch (toU64 (wrapI64 (toI64 v.raw + wrapI64 (duration * 1000))))

/-- Time::add_minutes for Ntp. -/
def Ntp.add_minutes (v : Ntp) (minutes : ℤ) : Ntp := v.add_seconds (wrapI64 (minutes * 60))

/-- Time::add_hours for Ntp. -/
def Ntp.add_hours (v : Ntp) (hours : ℤ) : Ntp := v.add_seconds (wrapI64 (hours * 3600))

/-- Time::add_days for Ntp. -/
def Ntp.add_days (v : Ntp) (days : ℤ) : Ntp := v.add_seconds (wrapI64 (days * 86400))

/-- Time::add_weeks for Ntp. -/
def Ntp.add_weeks (v : Ntp) (weeks : ℤ) : Ntp := v.add_seconds (wrapI64 (weeks * 604800))

/-- Time::cast default method `cast::<Ntp>()` on a System value:
`Ntp::from_epoch(self.raw())`. -/
def System.cast_ntp (v : System) : Ntp := Ntp.from_epoch v.raw

/-- Time::cast default method `cast::<System>()` on an Ntp value. -/
def Ntp.cast_system (v : Ntp) : System := System.from_epoch v.raw

/-- System::now, modelled with the platform clock reading passed explicitly:
Unix `timestamp()` seconds, `timestamp_subsec_millis()` and the local
`local_minus_utc` offset.  The struct is built as
`inner_secs = (timestamp + OFFSET_1601) as u64`. -/
def System.now (timestamp : ℤ) (subsecMillis : ℕ) (localMinusUtc : ℤ) : System :=
  { inner_secs := toU64 (wrapI64 (timestamp + 11644473600)),
    inner_milliseconds := subsecMillis, utc_offset := localMinusUtc }

/-- Ntp::now fallback branch (the chrono::Utc reading taken when the network
exchange fails), with the clock reading passed explicitly. -/
def Ntp.now_fallback (timestamp : ℤ) (subsecMillis : ℕ) : Ntp :=
  { inner_secs := toU64 (wrapI64 (timestamp + 11644473600)),
    inner_milliseconds := subsecMillis, server := "chrono::Utc", utc_offset := 0 }

/-- Ntp::new after a successful receive, modelled with the observable inputs
passed explicitly: the big-endian `u32` transmit-timestamp seconds read at byte
offset 40, and the two local `timestamp_millis()` readings taken before the
send (`startMs`) and after the receive (`endMs`).  The `u64` subtraction
`t - REF_TIME_1970` wraps (release semantics) and `elapsed_time % 1000` is
Rust's truncated remainder; its `try_into::<u64>()` falls back to 0 when the
remainder is negative. -/
def Ntp.new (transmit : ℕ) (startMs endMs : ℤ) (server : String) : Ntp :=
  let t := (transmit % U64MOD + U64MOD - 2208988800) % U64MOD
  let elapsed := wrapI64 (startMs - endMs)
  let r := Int.tmod elapsed 1000
  let milliseconds : ℕ := if 0 ≤ r then r.toNat else 0
  { inner_secs := (t + 11644473600) % U64MOD, inner_milliseconds := milliseconds,
    server := server, utc_offset := 0 }

/-- IntTime::unix from src/lib.rs: `T::from_epoch((n + OFFSET_1601) * 1000)` in
`u64` arithmetic, instantiated at `System`. -/
def intTime_unix (n : ℕ) : System :=
  System.from_epoch ((n % U64MOD + 11644473600) % U64MOD * 1000 % U64MOD)

/-- Round trip of claim C3: read the Unix seconds off a System value with
`unix()` and rebuild a value from that integer via IntTime::unix. -/
def unixRT (v : System) : System := intTime_unix v.unix.toNat

/-- Result of chrono's `DateTime::parse_from_str`, as consumed by strptime:
`timestamp()` Unix seconds, `timestamp_subsec_millis()` and the parsed
`local_minus_utc` offset. -/
structure ParsedDT where
  timestamp : ℤ
  subsecMillis : ℕ
  offset : ℤ
  deriving DecidableEq, Repr

/-- Characters of the `"%z"` pattern appended to the format on retry. -/
def patZ : List Char := ['%', 'z']

/-- Characters of the `" +0000"` text appended to the input on retry. -/
def plus0000 : List Char := [' ', '+', '0', '0', '0', '0']

/-- Rust `str::contains` specialised to the needle `"%z"`: does the pattern
occur as a contiguous substring? -/
def containsSub (p : List Char) : List Char → Bool
  | [] => p.isEmpty
  | c :: cs => p.isPrefixOf (c :: cs) || containsSub p cs

/-- Shared control flow of System::strptime and Ntp::strptime over an abstract
chrono parser: try `parse s f`; on failure, if the format does not contain
`"%z"`, recurse once on `s ++ " +0000"` and `f ++ "%z"`; otherwise fail (the
Rust `panic!("Bad format string")` is modelled as `Except.error`). -/
def strptimeAux (parse : List Char → List Char → Option ParsedDT) (s f : List Char) :
    Except String ParsedDT :=
  match parse s f with
  | some dt => .ok dt
  | none =>
    if containsSub patZ f = false then
      strptimeAux parse (s ++ plus0000) (f ++ patZ)
    else .error "Bad format string"
termination_by (if containsSub patZ f = true then 0 else 1)
decreasing_by
  have happ : ∀ g : List Char, containsSub patZ (g ++ patZ) = true := by
    intro g
    induction g with
    | nil => rfl
    | cons c cs ih => simp [containsSub, ih]
  simp_all

/-- System::strptime: run the shared parse-with-retry control flow and build
the struct from the parsed fields, `inner_secs = (timestamp + OFFSET_1601) as
u64`. -/
def System.strptime (parse : List Char → List Char → Option ParsedDT) (s f : List Char) :
    Except String System :=
  (strptimeAux parse s f).map fun dt =>
    { inner_secs := toU64 (wrapI64 (dt.timestamp + 11644473600)),
      inner_milliseconds := dt.subsecMillis, utc_offset := dt.offset }

/-- Ntp::strptime: identical control flow, server tag `"strptime"`. -/
def Ntp.strptime (parse : List Char → List Char → Option ParsedDT) (s f : List Char) :
    Except String Ntp :=
  (strptimeAux parse s f).map fun dt =>
    { inner_secs := toU64 (wrapI64 (dt.timestamp + 11644473600)),
      inner_milliseconds := dt.subsecMillis, server := "strptime", utc_offset := dt.offset }

/-- Digit run accumulator for the integer parses inside change_tz. -/
def parseDigitsAux : List Char → ℕ → Option ℕ
  | [], acc => some acc
  | c :: cs, acc => if c.isDigit then parseDigitsAux cs (acc * 10 + (c.toNat - 48)) else none

/-- Nonempty all-digit run parse. -/
def parseDigits : List Char → Option ℕ
  | [] => none
  | cs => parseDigitsAux cs 0

/-- Rust `str::parse::<i32>` on the short ASCII slices change_tz feeds it:
an optional sign followed by a nonempty digit run. -/
def parseIntChars : List Char → Option ℤ
  | [] => none
  | '+' :: rest => (parseDigits rest).map fun n => (n : ℤ)
  | '-' :: rest => (parseDigits rest).map fun n => -(n : ℤ)
  | cs => (parseDigits cs).map fun n => (n : ℤ)

/-- Time::change_tz default method for System.  `offset[1..3]` and
`offset[4..6]` are parsed as `i32` (a too-short string, like a failed parse,
panics in Rust and is modelled as `none`); the sign comes from
`starts_with('+')`.  The value is rebuilt through `from_epoch_offset` twice
with the source's `i64`/`u64` casts, and tagged with `-offset_seconds`. -/
def System.change_tz (v : System) (offset : List Char) : Option System :=
  if offset.length < 6 then none
  else
    match parseIntChars ((offset.drop 1).take 2), parseIntChars ((offset.drop 4).take 2) with
    | some hh, some mm =>
      let base : ℤ := hh * 3600 + mm * 60
      let offsetSeconds : ℤ := if offset.head? = some '+' then base else -base
      let dupedSecs := offsetSeconds
      let utcSelf :=
        System.from_epoch_offset (toU64 (wrapI64 (toI64 v.raw + wrapI64 (v.utc_offset * 1000)))) 0
      some (System.from_epoch_offset
        (toU64 (wrapI64 (toI64 utcSelf.raw + wrapI64 (offsetSeconds * 1000)))) (-dupedSecs))
    | _, _ => none

/-- Time::change_tz default method for Ntp (goes through the Ntp
from_epoch_offset). -/
def Ntp.change_tz (v : Ntp) (offset : List Char) : Option Ntp :=
  if offset.length < 6 then none
  else
    match parseIntChars ((offset.drop 1).take 2), parseIntChars ((offset.drop 4).take 2) with
    | some hh, some mm =>
      let base : ℤ := hh * 3600 + mm * 60
      let offsetSeconds : ℤ := if offset.head? = some '+' then base else -base
      let dupedSecs := offsetSeconds
      let utcSelf :=
        Ntp.from_epoch_offset (toU64 (wrapI64 (toI64 v.raw + wrapI64 (v.utc_offset * 1000)))) 0
      some (Ntp.from_epoch_offset
        (toU64 (wrapI64 (toI64 utcSelf.raw + wrapI64 (offsetSeconds * 1000)))) (-dupedSecs))
    | _, _ => none

/-- Reduction of `wrapI64` to the identity on the `i64` range. -/
theorem wrapI64_eq_self (z : ℤ) (h1 : -(9223372036854775808 : ℤ) ≤ z)
    (h2 : z < 9223372036854775808) : wrapI64 z = z := by
  simp only [wrapI64, toI64, toU64, U64MOD, I64HALF]
  split <;> omega

/-- Reduction of `toI64` to the identity below `2^63`. -/
theorem toI64_eq_self (n : ℕ) (h : n < 9223372036854775808) : toI64 n = n := by
  simp only [toI64, U64MOD, I64HALF]
  split <;> omega

/-- Rust truncated remainder of a nonpositive dividend is nonpositive. -/
theorem tmod_nonpos (a b : ℤ) (h : a ≤ 0) : Int.tmod a b ≤ 0 := by
  rcases a with m | m
  · rcases b with n | n
    · simp only [Int.tmod, Int.ofNat_eq_natCast] at h ⊢
      have hm : m = 0 := by omega
      subst hm
      simp
    · simp only [Int.tmod, Int.ofNat_eq_natCast] at h ⊢
      have hm : m = 0 := by omega
      subst hm
      simp
  · rcases b with n | n
    · simp only [Int.tmod, Int.ofNat_eq_natCast]
      omega
    · simp only [Int.tmod, Int.ofNat_eq_natCast]
      omega

/-- Trichotomy facts about the past_future comparison on raw counts. -/
theorem pastFutureRaw_spec (x y : ℕ) :
    (pastFutureRaw x y = RelativeTime.Past ↔ pastFutureRaw y x = RelativeTime.Future) ∧
    (pastFutureRaw x y = RelativeTime.Present ↔ x = y) := by
  rcases Nat.lt_trichotomy x y with h | h | h
  · constructor <;> simp [pastFutureRaw, h, Nat.lt_asymm h]
    omega
  · subst h
    simp [pastFutureRaw]
  · constructor <;> simp [pastFutureRaw, h, Nat.lt_asymm h]
    omega

/-- C8: for any two time values a and b, `a.past_future(b)` is Past exactly
when `b.past_future(a)` is Future, and is Present exactly when the raw
millisecond counts agree; stated for System pairs, Ntp pairs and mixed
pairs. -/
theorem C8_past_future_antisym (a b : System) (c d : Ntp) :
    ((a.past_future b = RelativeTime.Past ↔ b.past_future a = RelativeTime.Future) ∧
      (a.past_future b = RelativeTime.Present ↔ a.raw = b.raw)) ∧
    ((c.past_future d = RelativeTime.Past ↔ d.past_future c = RelativeTime.Future) ∧
      (c.past_future d = RelativeTime.Present ↔ c.raw = d.raw)) ∧
    ((a.past_future_ntp c = RelativeTime.Past ↔ c.past_future_system a = RelativeTime.Future) ∧
      (a.past_future_ntp c = RelativeTime.Present ↔ a.raw = c.raw)) :=
  ⟨pastFutureRaw_spec a.raw b.raw, pastFutureRaw_spec c.raw d.raw,
    pastFutureRaw_spec a.raw c.raw⟩

/-- C1 counterexample: two System values built by from_epoch_offset with the
same timestamp but different offsets have equal raw counts, yet the derived
structural equality distinguishes them and the derived lexicographic Ord
orders them by the offset field. -/
theorem C1_counterexample :
    (System.from_epoch_offset 0 0).raw = (System.from_epoch_offset 0 3600).raw ∧
    System.from_epoch_offset 0 0 ≠ System.from_epoch_offset 0 3600 ∧
    systemCmp (System.from_epoch_offset 0 0) (System.from_epoch_offset 0 3600) = Ordering.lt := by
  refine ⟨by decide, by decide, by decide⟩

/-- C1 (amended): past_future, diff and diff_ms are functions of the raw
combined millisecond counts alone — replacing either operand by any value with
the same raw count leaves them unchanged — for System and for Ntp; the derived
`==`/`Ord`, by contrast, also compare the offset field (see the
counterexample). -/
theorem C1_raw_sole_basis :
    (∀ a b a' b' : System, a.raw = a'.raw → b.raw = b'.raw →
      a.past_future b = a'.past_future b' ∧ a.diff b = a'.diff b' ∧ a.diff_ms b = a'.diff_ms b') ∧
    (∀ a b a' b' : Ntp, a.raw = a'.raw → b.raw = b'.raw →
      a.past_future b = a'.past_future b' ∧ a.diff b = a'.diff b' ∧ a.diff_ms b = a'.diff_ms b') := by
  constructor <;>
    · intro a b a' b' h1 h2
      refine ⟨?_, ?_, ?_⟩ <;>
        simp only [System.past_future, System.diff, System.diff_ms, Ntp.past_future, Ntp.diff,
          Ntp.diff_ms, h1, h2]

/-- Witness for the amended C1 theorem at concrete values with equal raw
counts but different offset tags. -/
theorem C1_raw_sole_basis_witness :
    (System.from_epoch_offset 0 0).past_future (System.from_epoch 5000)
        = (System.from_epoch_offset 0 3600).past_future (System.from_epoch 5000) ∧
      (System.from_epoch_offset 0 0).diff (System.from_epoch 5000)
        = (System.from_epoch_offset 0 3600).diff (System.from_epoch 5000) ∧
      (System.from_epoch_offset 0 0).diff_ms (System.from_epoch 5000)
        = (System.from_epoch_offset 0 3600).diff_ms (System.from_epoch 5000) :=
  C1_raw_sole_basis.1 (System.from_epoch_offset 0 0) (System.from_epoch 5000)
    (System.from_epoch_offset 0 3600) (System.from_epoch 5000) (by decide) (by decide)

/-- C2 (code-bug evaluation): applying change_tz("+01:00") then
change_tz("-01:00") to the System value with raw count 7200000 yields raw
count 3600000, not 7200000; on the Ntp side the buggy from_epoch_offset
(missing the division by 1000) inflates the value to raw count
7203596396400000000. -/
theorem C2_roundtrip_fails_eval :
    (((System.from_epoch 7200000).change_tz ("+01:00".data)).bind
        (fun w => w.change_tz ("-01:00".data))).map System.raw = some 3600000 ∧
    (System.from_epoch 7200000).raw = 7200000 ∧
    (3600000 : ℕ) ≠ 7200000 ∧
    (((Ntp.from_epoch 7200000).change_tz ("+01:00".data)).bind
        (fun w => w.change_tz ("-01:00".data))).map Ntp.raw = some 7203596396400000000 := by
  refine ⟨by decide, by decide, by decide, by decide⟩

/-- C3 counterexample: for the pair (seconds_since_1601, ms) =
(11644473600, 1), reading the Unix seconds and rebuilding through
IntTime::unix loses the millisecond: the raw counts differ. -/
theorem C3_counterexample :
    (unixRT (System.from_epoch 11644473600001)).raw ≠ (System.from_epoch 11644473600001).raw := by
  decide

/-- C3 (amended): for every valid pair, the unix()/IntTime::unix round trip
rebuilds the whole-second part only: the resulting raw count is
`seconds_since_1601 * 1000`, so it equals the original raw count exactly when
the millisecond field is 0. -/
theorem C3_unix_roundtrip_truncates (v : System)
    (h1 : 11644473600 ≤ v.inner_secs) (h2 : v.inner_secs < 1125899906842624) :
    (unixRT v).raw = v.inner_secs * 1000 ∧
    (v.inner_milliseconds < 1000 → ((unixRT v).raw = v.raw ↔ v.inner_milliseconds = 0)) := by
  have hu : v.unix = (v.inner_secs : ℤ) - 11644473600 := by
    simp only [System.unix, toI64_eq_self v.inner_secs (by omega)]
    exact wrapI64_eq_self _ (by omega) (by omega)
  have hn : v.unix.toNat = v.inner_secs - 11644473600 := by omega
  have hr : (unixRT v).raw = v.inner_secs * 1000 := by
    simp only [unixRT, hn, intTime_unix, System.from_epoch, System.raw, U64MOD]
    omega
  refine ⟨hr, fun hm => ?_⟩
  rw [hr]
  simp only [System.raw, U64MOD]
  omega

/-- Witness for the amended C3 theorem at (seconds, ms) = (11644473600, 500). -/
theorem C3_unix_roundtrip_truncates_witness :
    (unixRT ⟨11644473600, 500, 0⟩).raw = 11644473600 * 1000 ∧
    ((⟨11644473600, 500, 0⟩ : System).inner_milliseconds < 1000 →
      ((unixRT ⟨11644473600, 500, 0⟩).raw = (⟨11644473600, 500, 0⟩ : System).raw ↔
        (⟨11644473600, 500, 0⟩ : System).inner_milliseconds = 0)) :=
  C3_unix_roundtrip_truncates ⟨11644473600, 500, 0⟩ (by decide) (by decide)

/-- C4: for every successful exchange whose response carries the 32-bit
transmit-timestamp seconds T, the constructed inner_secs equals
T - 2208988800 + 11644473600, whatever the two local clock readings were. -/
theorem C4_ntp_epoch_conversion (transmit : ℕ) (startMs endMs : ℤ) (server : String)
    (h : transmit < 4294967296) :
    ((Ntp.new transmit startMs endMs server).inner_secs : ℤ)
      = (transmit : ℤ) - 2208988800 + 11644473600 := by
  simp only [Ntp.new, U64MOD]
  omega

/-- Witness for C4 at T = 3900000000. -/
theorem C4_ntp_epoch_conversion_witness :
    ((Ntp.new 3900000000 5 3 "pool.ntp.org").inner_secs : ℤ)
      = (3900000000 : ℤ) - 2208988800 + 11644473600 :=
  C4_ntp_epoch_conversion 3900000000 5 3 "pool.ntp.org" (by decide)

/-- C10: when the local reading taken after the receive is not earlier than
the reading taken before the send (and the two readings are within the i64
millisecond span of each other, as any two real clock readings are), the
elapsed value start - end is nonpositive, its truncated remainder mod 1000 is
nonpositive, and the u64 conversion fallback makes the stored subsecond
milliseconds exactly 0. -/
theorem C10_elapsed_nonpositive_ms_zero (transmit : ℕ) (startMs endMs : ℤ) (server : String)
    (h1 : startMs ≤ endMs) (h2 : endMs - startMs ≤ 9223372036854775808) :
    (Ntp.new transmit startMs endMs server).inner_milliseconds = 0 := by
  have hw : wrapI64 (startMs - endMs) = startMs - endMs :=
    wrapI64_eq_self _ (by omega) (by omega)
  have hr : Int.tmod (startMs - endMs) 1000 ≤ 0 := tmod_nonpos _ _ (by omega)
  simp only [Ntp.new, hw]
  split
  · next hc => omega
  · rfl

/-- Witness for C10 at concrete clock readings 50 (before send) and 100
(after receive). -/
theorem C10_elapsed_nonpositive_ms_zero_witness :
    (Ntp.new 3900000000 50 100 "pool.ntp.org").inner_milliseconds = 0 :=
  C10_elapsed_nonpositive_ms_zero 3900000000 50 100 "pool.ntp.org" (by decide) (by decide)

/-- Unix value of a System struct whose second count is within the i64 range. -/
theorem system_unix_eq_of_lt (v : System) (h : v.inner_secs < 4611686018427387904) :
    v.unix = (v.inner_secs : ℤ) - 11644473600 := by
  rw [System.unix, toI64_eq_self v.inner_secs (by omega)]
  exact wrapI64_eq_self _ (by omega) (by omega)

/-- Unix value of an Ntp struct whose second count is within the i64 range. -/
theorem ntp_unix_eq_of_lt (v : Ntp) (h : v.inner_secs < 4611686018427387904) :
    v.unix = (v.inner_secs : ℤ) - 11644473600 := by
  rw [Ntp.unix, toI64_eq_self v.inner_secs (by omega)]
  exact wrapI64_eq_self _ (by omega) (by omega)

/-- C7: the three epoch conversions are exactly the fixed magic offsets applied
to the Unix-seconds value — added for the pre-1970 epochs (Mac OS 1904, SAS
1960) and subtracted for the post-1970 epoch (Mac OS Absolute 2001) — for
System and Ntp values alike (any value whose second count stays in the range
where the i64 additions cannot wrap). -/
theorem C7_magic_epoch_constants (v : System) (w : Ntp)
    (hv : v.inner_secs < 4611686018427387904) (hw : w.inner_secs < 4611686018427387904) :
    (v.mac_os = v.unix + 2082844800 ∧ v.mac_os_cfa = v.unix - 978307200 ∧
      v.sas_4gl = v.unix + 315619200) ∧
    (w.mac_os = w.unix + 2082844800 ∧ w.mac_os_cfa = w.unix - 978307200 ∧
      w.sas_4gl = w.unix + 315619200) := by
  have hb1 : -(11644473600 : ℤ) ≤ v.unix ∧ v.unix < 4611686018427387904 := by
    rw [system_unix_eq_of_lt v hv]
    omega
  have hb2 : -(11644473600 : ℤ) ≤ w.unix ∧ w.unix < 4611686018427387904 := by
    rw [ntp_unix_eq_of_lt w hw]
    omega
  refine ⟨⟨?_, ?_, ?_⟩, ⟨?_, ?_, ?_⟩⟩ <;>
    exact wrapI64_eq_self _ (by omega) (by omega)

/-- Witness for C7 at concrete System and Ntp values. -/
theorem C7_magic_epoch_constants_witness :
    ((⟨11644473600, 0, 0⟩ : System).mac_os = (⟨11644473600, 0, 0⟩ : System).unix + 2082844800 ∧
      (⟨11644473600, 0, 0⟩ : System).mac_os_cfa = (⟨11644473600, 0, 0⟩ : System).unix - 978307200 ∧
      (⟨11644473600, 0, 0⟩ : System).sas_4gl = (⟨11644473600, 0, 0⟩ : System).unix + 315619200) ∧
    ((⟨11644473600, 0, "pool.ntp.org", 0⟩ : Ntp).mac_os
        = (⟨11644473600, 0, "pool.ntp.org", 0⟩ : Ntp).unix + 2082844800 ∧
      (⟨11644473600, 0, "pool.ntp.org", 0⟩ : Ntp).mac_os_cfa
        = (⟨11644473600, 0, "pool.ntp.org", 0⟩ : Ntp).unix - 978307200 ∧
      (⟨11644473600, 0, "pool.ntp.org", 0⟩ : Ntp).sas_4gl
        = (⟨11644473600, 0, "pool.ntp.org", 0⟩ : Ntp).unix + 315619200) :=
  C7_magic_epoch_constants ⟨11644473600, 0, 0⟩ ⟨11644473600, 0, "pool.ntp.org", 0⟩
    (by decide) (by decide)

/-- Bound on the fuelled ulp exponent: a magnitude below `2^53 * 2^k` needs at
most k halvings. -/
theorem ulpExpAux_le (fuel : ℕ) : ∀ (k m : ℕ),
    m < 9007199254740992 * 2 ^ k → k ≤ fuel → ulpExpAux fuel m ≤ k := by
  induction fuel with
  | zero =>
    intro k m _ _
    simp [ulpExpAux]
  | succ f ih =>
    intro k m hm hk
    simp only [ulpExpAux]
    split
    · exact Nat.zero_le k
    · next hnot =>
      have hk1 : 1 ≤ k := by
        by_contra hc
        push_neg at hc
        have hk0 : k = 0 := by omega
        subst hk0
        simp only [pow_zero, mul_one] at hm
        omega
      have hpow : (2 : ℕ) ^ k = 2 ^ (k - 1) * 2 := by
        rw [← pow_succ]
        congr 1
        omega
      have hm2 : m / 2 < 9007199254740992 * 2 ^ (k - 1) := by
        rw [hpow] at hm
        omega
      have := ih (k - 1) (m / 2) hm2 (by omega)
      omega

/-- Exactness of binary64 rounding on multiples of 16 below `2^57`. -/
theorem roundNat53_eq_self (n : ℕ) (hdvd : 16 ∣ n) (hlt : n < 144115188075855872) :
    roundNat53 n = n := by
  simp only [roundNat53]
  split
  · rfl
  · next hge =>
    have he : ulpExp n ≤ 4 := ulpExpAux_le 128 4 n (by omega) (by omega)
    have hdvd2 : 2 ^ ulpExp n ∣ n := by
      refine dvd_trans (pow_dvd_pow 2 he) ?_
      norm_num
      exact hdvd
    have hpos : 0 < 2 ^ ulpExp n := pow_pos (by norm_num) _
    have hr : n % 2 ^ ulpExp n = 0 := Nat.dvd_iff_mod_eq_zero.mp hdvd2
    split
    · next hcnd =>
      exfalso
      rw [hr] at hcnd
      rcases hcnd with hcnd | ⟨hcnd, _⟩ <;> omega
    · exact Nat.div_mul_cancel hdvd2

/-- Reduction of the raw count when no u64 wrap occurs. -/
theorem System.raw_eq_of_lt (v : System)
    (h : v.inner_secs * 1000 + v.inner_milliseconds < 18446744073709551616) :
    v.raw = v.inner_secs * 1000 + v.inner_milliseconds := by
  simp only [System.raw, U64MOD]
  omega

/-- Reduction of the epoch value when no i64 wrap occurs. -/
theorem System.epoch_eq_of_lt (v : System)
    (h : v.inner_secs * 1000 + v.inner_milliseconds < 9223372036854775808) :
    v.epoch = ((v.inner_secs * 1000 + v.inner_milliseconds : ℕ) : ℤ) := by
  simp only [System.epoch, System.unix_ms, toI64_eq_self v.inner_secs (by omega),
    toI64_eq_self v.inner_milliseconds (by omega)]
  rw [wrapI64_eq_self ((v.inner_secs : ℤ) * 1000) (by omega) (by omega)]
  rw [wrapI64_eq_self ((v.inner_secs : ℤ) * 1000 + (v.inner_milliseconds : ℤ))
    (by omega) (by omega)]
  rw [wrapI64_eq_self ((v.inner_secs : ℤ) * 1000 + (v.inner_milliseconds : ℤ) - 11644473600000)
    (by omega) (by omega)]
  rw [wrapI64_eq_self
    ((v.inner_secs : ℤ) * 1000 + (v.inner_milliseconds : ℤ) - 11644473600000 + 11644473600000)
    (by omega) (by omega)]
  push_cast
  ring

/-- C6 (amended): windows_ns returns exactly raw * 10000 for every value whose
raw count is at most 14411518807585 (so that the product stays below `2^57`
and the f64 multiplication is exact); beyond that bound the f64 product is
rounded to the nearest representable double (see the counterexample). -/
theorem C6_windows_ns_exact (v : System)
    (h : v.inner_secs * 1000 + v.inner_milliseconds ≤ 14411518807585) :
    v.windows_ns = (v.raw : ℤ) * 10000 := by
  have hraw := System.raw_eq_of_lt v (by omega)
  have hepoch := System.epoch_eq_of_lt v (by omega)
  have h1 : roundF64Int v.epoch = ((v.inner_secs * 1000 + v.inner_milliseconds : ℕ) : ℤ) := by
    rw [hepoch, roundF64Int, if_neg (by omega), Int.toNat_natCast, roundNat53,
      if_pos (by omega)]
  have ht : ((((v.inner_secs * 1000 + v.inner_milliseconds : ℕ) : ℤ) * 10000)).toNat
      = (v.inner_secs * 1000 + v.inner_milliseconds) * 10000 := by omega
  have h2 : roundF64Int (((v.inner_secs * 1000 + v.inner_milliseconds : ℕ) : ℤ) * 10000)
      = (((v.inner_secs * 1000 + v.inner_milliseconds) * 10000 : ℕ) : ℤ) := by
    rw [roundF64Int, if_neg (by omega), ht,
      roundNat53_eq_self _ ⟨(v.inner_secs * 1000 + v.inner_milliseconds) * 625, by ring⟩
      (by omega)]
  rw [System.windows_ns, h1, h2, satI64, hraw]
  simp only [I64HALF]
  rw [min_eq_right (by push_cast; omega), max_eq_right (by push_cast; omega)]
  push_cast
  ring

/-- Witness for the amended C6 theorem at raw count 7200000. -/
theorem C6_windows_ns_exact_witness :
    (System.from_epoch 7200000).windows_ns = ((System.from_epoch 7200000).raw : ℤ) * 10000 :=
  C6_windows_ns_exact (System.from_epoch 7200000) (by decide)

/-- C6 counterexample: at raw count 14411518807587 the product with 10000
lands between representable doubles and the f64 multiplication rounds it up
by 16 ticks, so windows_ns is not exactly raw * 10000. -/
theorem C6_counterexample :
    (System.from_epoch 14411518807587).windows_ns = 144115188075870016 ∧
    ((System.from_epoch 14411518807587).raw : ℤ) * 10000 = 144115188075870000 ∧
    (System.from_epoch 14411518807587).windows_ns
      ≠ ((System.from_epoch 14411518807587).raw : ℤ) * 10000 := by
  refine ⟨by decide, by decide, by decide⟩

/-- The retried format always contains "%z". -/
theorem containsSub_patZ_append (f : List Char) : containsSub patZ (f ++ patZ) = true := by
  induction f with
  | nil => rfl
  | cons c cs ih => simp [containsSub, ih]

/-- Unfolding of strptimeAux on a successful first parse. -/
theorem strptimeAux_some (parse : List Char → List Char → Option ParsedDT) (s f : List Char)
    (dt : ParsedDT) (h : parse s f = some dt) : strptimeAux parse s f = .ok dt := by
  rw [strptimeAux.eq_def, h]

/-- Unfolding of strptimeAux on a failed parse with an offset-less format: one
retry with " +0000" and "%z" appended. -/
theorem strptimeAux_none_noz (parse : List Char → List Char → Option ParsedDT) (s f : List Char)
    (hn : parse s f = none) (hf : containsSub patZ f = false) :
    strptimeAux parse s f = strptimeAux parse (s ++ plus0000) (f ++ patZ) := by
  rw [strptimeAux.eq_def, hn]
  simp only [hf]
  rfl

/-- Unfolding of strptimeAux on a failed parse whose format already contains
"%z": the Rust panic. -/
theorem strptimeAux_none_z (parse : List Char → List Char → Option ParsedDT) (s f : List Char)
    (hn : parse s f = none) (hf : containsSub patZ f = true) :
    strptimeAux parse s f = .error "Bad format string" := by
  rw [strptimeAux.eq_def, hn]
  simp [hf]

/-- Every ok result of strptimeAux comes from the first parse or from the
single retry. -/
theorem strptimeAux_ok_cases (parse : List Char → List Char → Option ParsedDT) (s f : List Char)
    (dt : ParsedDT) (h : strptimeAux parse s f = .ok dt) :
    parse s f = some dt ∨ parse (s ++ plus0000) (f ++ patZ) = some dt := by
  cases hp : parse s f with
  | some d =>
    rw [strptimeAux_some parse s f d hp] at h
    left
    cases h
    rfl
  | none =>
    cases hf : containsSub patZ f with
    | true =>
      rw [strptimeAux_none_z parse s f hp hf] at h
      exact absurd h (by simp)
    | false =>
      rw [strptimeAux_none_noz parse s f hp hf] at h
      cases hp2 : parse (s ++ plus0000) (f ++ patZ) with
      | some d =>
        rw [strptimeAux_some _ _ _ d hp2] at h
        right
        cases h
        rfl
      | none =>
        rw [strptimeAux_none_z _ _ _ hp2 (containsSub_patZ_append f)] at h
        exact absurd h (by simp)

/-- C5: on a failed first parse with a format lacking "%z", strptime retries
exactly once with " +0000" appended to the input and "%z" appended to the
format, returning that parse's result on success; if the retried parse also
fails, or the first parse fails with a format already containing "%z", it
aborts with the "Bad format string" panic; a successful first parse returns
at once with no retry and no panic. -/
theorem C5_strptime_retry_contract (parse : List Char → List Char → Option ParsedDT)
    (s f : List Char) :
    (∀ dt, parse s f = some dt → strptimeAux parse s f = .ok dt) ∧
    (parse s f = none → containsSub patZ f = false →
      (∀ dt, parse (s ++ plus0000) (f ++ patZ) = some dt → strptimeAux parse s f = .ok dt) ∧
      (parse (s ++ plus0000) (f ++ patZ) = none →
        strptimeAux parse s f = .error "Bad format string")) ∧
    (parse s f = none → containsSub patZ f = true →
      strptimeAux parse s f = .error "Bad format string") := by
  refine ⟨fun dt h => strptimeAux_some parse s f dt h, fun hn hf => ⟨?_, ?_⟩,
    fun hn hf => strptimeAux_none_z parse s f hn hf⟩
  · intro dt h2
    rw [strptimeAux_none_noz parse s f hn hf]
    exact strptimeAux_some _ _ _ dt h2
  · intro h2
    rw [strptimeAux_none_noz parse s f hn hf]
    exact strptimeAux_none_z _ _ _ h2 (containsSub_patZ_append f)

/-- Concrete parse oracle for the witnesses: succeeds exactly when the format
contains "%z" (so the first parse of an offset-less format fails and the
retried parse succeeds), always returning the fixed result (0, 5, 0). -/
def parseW : List Char → List Char → Option ParsedDT := fun _ f =>
  if containsSub patZ f = true then some ⟨0, 5, 0⟩ else none

/-- Witness for C5: with the oracle parseW and empty input and format, the
first parse fails, the format lacks "%z", and the single retry succeeds. -/
theorem C5_strptime_retry_contract_witness :
    strptimeAux parseW [] [] = .ok ⟨0, 5, 0⟩ :=
  ((C5_strptime_retry_contract parseW [] []).2.1 (by decide) (by decide)).1
    ⟨0, 5, 0⟩ (by decide)

/-- C9: every constructor and deriving operation — now (given a platform clock
reading whose subsecond-millisecond component is below 1000, as chrono
guarantees outside leap-second smearing), strptime (given a parser with the
same guarantee), from_epoch, from_epoch_offset, the NTP exchange and its
fallback, add_seconds and its unit variants, change_tz and cast — produces a
value whose subsecond-millisecond field is strictly below 1000. -/
theorem C9_subsecond_lt_1000 :
    (∀ (ts : ℤ) (sub : ℕ) (off : ℤ), sub < 1000 →
      (System.now ts sub off).inner_milliseconds < 1000) ∧
    (∀ (ts : ℤ) (sub : ℕ), sub < 1000 → (Ntp.now_fallback ts sub).inner_milliseconds < 1000) ∧
    (∀ (parse : List Char → List Char → Option ParsedDT) (s f : List Char) (v : System),
      (∀ a b dt, parse a b = some dt → dt.subsecMillis < 1000) →
      System.strptime parse s f = .ok v → v.inner_milliseconds < 1000) ∧
    (∀ (parse : List Char → List Char → Option ParsedDT) (s f : List Char) (w : Ntp),
      (∀ a b dt, parse a b = some dt → dt.subsecMillis < 1000) →
      Ntp.strptime parse s f = .ok w → w.inner_milliseconds < 1000) ∧
    (∀ (ts : ℕ) (off : ℤ), (System.from_epoch ts).inner_milliseconds < 1000 ∧
      (System.from_epoch_offset ts off).inner_milliseconds < 1000 ∧
      (Ntp.from_epoch ts).inner_milliseconds < 1000 ∧
      (Ntp.from_epoch_offset ts off).inner_milliseconds < 1000) ∧
    (∀ (t : ℕ) (sMs eMs : ℤ) (srv : String),
      (Ntp.new t sMs eMs srv).inner_milliseconds < 1000) ∧
    (∀ (v : System) (d : ℤ), (v.add_seconds d).inner_milliseconds < 1000 ∧
      (v.add_minutes d).inner_milliseconds < 1000 ∧ (v.add_hours d).inner_milliseconds < 1000 ∧
      (v.add_days d).inner_milliseconds < 1000 ∧ (v.add_weeks d).inner_milliseconds < 1000) ∧
    (∀ (w : Ntp) (d : ℤ), (w.add_seconds d).inner_milliseconds < 1000 ∧
      (w.add_minutes d).inner_milliseconds < 1000 ∧ (w.add_hours d).inner_milliseconds < 1000 ∧
      (w.add_days d).inner_milliseconds < 1000 ∧ (w.add_weeks d).inner_milliseconds < 1000) ∧
    (∀ (v : System) (off : List Char) (w : System), v.change_tz off = some w →
      w.inner_milliseconds < 1000) ∧
    (∀ (v : Ntp) (off : List Char) (w : Ntp), v.change_tz off = some w →
      w.inner_milliseconds < 1000) ∧
    (∀ v : System, v.cast_ntp.inner_milliseconds < 1000) ∧
    (∀ w : Ntp, w.cast_system.inner_milliseconds < 1000) := by
  have hmod : ∀ n : ℕ, n % 1000 < 1000 := fun n => Nat.mod_lt _ (by norm_num)
  refine ⟨fun ts sub off h => h, fun ts sub h => h, ?_, ?_, ?_, ?_, ?_, ?_, ?_, ?_, ?_, ?_⟩
  · intro parse s f v hor hok
    cases he : strptimeAux parse s f with
    | ok dt =>
      rw [System.strptime, he] at hok
      cases hok
      rcases strptimeAux_ok_cases parse s f dt he with hp | hp
      · exact hor _ _ _ hp
      · exact hor _ _ _ hp
    | error e =>
      rw [System.strptime, he] at hok
      simp [Except.map] at hok
  · intro parse s f w hor hok
    cases he : strptimeAux parse s f with
    | ok dt =>
      rw [Ntp.strptime, he] at hok
      cases hok
      rcases strptimeAux_ok_cases parse s f dt he with hp | hp
      · exact hor _ _ _ hp
      · exact hor _ _ _ hp
    | error e =>
      rw [Ntp.strptime, he] at hok
      simp [Except.map] at hok
  · intro ts off
    exact ⟨hmod ts, hmod ts, hmod ts, hmod ts⟩
  · intro t sMs eMs srv
    simp only [Ntp.new]
    split
    · next hc =>
      have := Int.tmod_lt_of_pos (wrapI64 (sMs - eMs)) (show (0 : ℤ) < 1000 by norm_num)
      omega
    · norm_num
  · intro v d
    exact ⟨hmod _, hmod _, hmod _, hmod _, hmod _⟩
  · intro w d
    exact ⟨hmod _, hmod _, hmod _, hmod _, hmod _⟩
  · intro v off w h
    simp only [System.change_tz] at h
    split at h
    · exact Option.noConfusion h
    · split at h
      · cases h
        exact hmod _
      · exact Option.noConfusion h
  · intro v off w h
    simp only [Ntp.change_tz] at h
    split at h
    · exact Option.noConfusion h
    · split at h
      · cases h
        exact hmod _
      · exact Option.noConfusion h
  · intro v
    exact hmod _
  · intro w
    exact hmod _

/-- Witness for C9, instantiating every component at concrete inputs (the
strptime components through the parseW oracle, the change_tz components at the
concrete outputs of change_tz("+01:00")). -/
theorem C9_subsecond_lt_1000_witness :
    (System.now 1700000000 123 3600).inner_milliseconds < 1000 ∧
    (Ntp.now_fallback 1700000000 123).inner_milliseconds < 1000 ∧
    ((⟨11644473600, 5, 0⟩ : System).inner_milliseconds < 1000) ∧
    ((⟨11644473600, 5, "strptime", 0⟩ : Ntp).inner_milliseconds < 1000) ∧
    ((System.from_epoch 123456).inner_milliseconds < 1000 ∧
      (System.from_epoch_offset 123456 3600).inner_milliseconds < 1000 ∧
      (Ntp.from_epoch 123456).inner_milliseconds < 1000 ∧
      (Ntp.from_epoch_offset 123456 3600).inner_milliseconds < 1000) ∧
    ((Ntp.new 3900000000 7 3 "pool.ntp.org").inner_milliseconds < 1000) ∧
    (((System.from_epoch 5000).add_seconds 7).inner_milliseconds < 1000 ∧
      ((System.from_epoch 5000).add_minutes 7).inner_milliseconds < 1000 ∧
      ((System.from_epoch 5000).add_hours 7).inner_milliseconds < 1000 ∧
      ((System.from_epoch 5000).add_days 7).inner_milliseconds < 1000 ∧
      ((System.from_epoch 5000).add_weeks 7).inner_milliseconds < 1000) ∧
    (((Ntp.from_epoch 5000).add_seconds 7).inner_milliseconds < 1000 ∧
      ((Ntp.from_epoch 5000).add_minutes 7).inner_milliseconds < 1000 ∧
      ((Ntp.from_epoch 5000).add_hours 7).inner_milliseconds < 1000 ∧
      ((Ntp.from_epoch 5000).add_days 7).inner_milliseconds < 1000 ∧
      ((Ntp.from_epoch 5000).add_weeks 7).inner_milliseconds < 1000) ∧
    ((⟨10800, 0, -3600⟩ : System).inner_milliseconds < 1000) ∧
    ((⟨7203600000, 0, "from_epoch_offset", -3600⟩ : Ntp).inner_milliseconds < 1000) ∧
    ((System.from_epoch 5000).cast_ntp.inner_milliseconds < 1000) ∧
    ((Ntp.from_epoch 5000).cast_system.inner_milliseconds < 1000) := by
  have hor : ∀ a b dt, parseW a b = some dt → dt.subsecMillis < 1000 := by
    intro a b dt h
    simp only [parseW] at h
    split at h
    · cases h
      norm_num
    · exact Option.noConfusion h
  have hst : strptimeAux parseW [] [] = .ok ⟨0, 5, 0⟩ := by
    rw [strptimeAux_none_noz parseW [] [] (by decide) (by decide)]
    exact strptimeAux_some _ _ _ _ (by decide)
  have hsys : System.strptime parseW [] [] = .ok ⟨11644473600, 5, 0⟩ := by
    rw [System.strptime, hst]
    rfl
  have hntp : Ntp.strptime parseW [] [] = .ok ⟨11644473600, 5, "strptime", 0⟩ := by
    rw [Ntp.strptime, hst]
    rfl
  have hc9 := C9_subsecond_lt_1000
  exact ⟨hc9.1 1700000000 123 3600 (by norm_num),
    hc9.2.1 1700000000 123 (by norm_num),
    hc9.2.2.1 parseW [] [] _ hor hsys,
    hc9.2.2.2.1 parseW [] [] _ hor hntp,
    hc9.2.2.2.2.1 123456 3600,
    hc9.2.2.2.2.2.1 3900000000 7 3 "pool.ntp.org",
    hc9.2.2.2.2.2.2.1 (System.from_epoch 5000) 7,
    hc9.2.2.2.2.2.2.2.1 (Ntp.from_epoch 5000) 7,
    hc9.2.2.2.2.2.2.2.2.1 (System.from_epoch 7200000) ("+01:00".data)
      ⟨10800, 0, -3600⟩ (by decide),
    hc9.2.2.2.2.2.2.2.2.2.1 (Ntp.from_epoch 7200000) ("+01:00".data)
      ⟨7203600000, 0, "from_epoch_offset", -3600⟩ (by decide),
    hc9.2.2.2.2.2.2.2.2.2.2.1 (System.from_epoch 5000),
    hc9.2.2.2.2.2.2.2.2.2.2.2 (Ntp.from_epoch 5000)⟩
